import Mathlib

set_option maxHeartbeats 1000000

/-!
Verification development for the OpenNebula Ansible inventory plugin
(plugins/inventory/opennebula.py).  The Python code is shallowly embedded:
XML-derived attribute mappings become association lists over `OneValue`,
the remote endpoint and the pyone library become fields of a `Server`
record, and every fallible Python code path returns `Except PyErr`.
-/

/-- A value inside an attribute mapping returned by the remote API: a string,
a nested mapping, or a list (as produced for repeated XML tags). -/
inductive OneValue where
  | str (s : String)
  | dict (d : List (String × OneValue))
  | list (l : List OneValue)

/-- The kinds of Python exceptions the embedded code paths can raise. -/
inductive PyErr where
  | invalidOption
  | indexError
  | keyError
  | valueError
  | typeError
  | attributeError
  | nameError
  | noExists
  | remoteFailure
  | unknownState
  | unknownLcmState
deriving DecidableEq

/-- Python `str.lower()`, character by character (the keys in this code base
are ASCII). -/
def lowerStr (s : String) : String := ⟨s.data.map Char.toLower⟩

/-- One decimal digit, or `none`. -/
def digitVal (c : Char) : Option Nat :=
  if 48 ≤ c.toNat ∧ c.toNat ≤ 57 then some (c.toNat - 48) else none

/-- Accumulate decimal digits; `none` as accumulator means no digit seen
yet, so the empty digit string is rejected. -/
def parseNatDigits : List Char → Option Nat → Option Nat
  | [], acc => acc
  | c :: rest, acc =>
    match digitVal c, acc with
    | some d, some a => parseNatDigits rest (some (a * 10 + d))
    | some d, none => parseNatDigits rest (some d)
    | none, _ => none

/-- Python `int(s)` on a decimal string: an optional sign followed by at
least one digit; anything else is a `ValueError` (`none`). -/
def parseIntStr (s : String) : Option Int :=
  match s.data with
  | [] => none
  | c :: rest =>
    if c = '-' then (parseNatDigits rest none).map (fun n => -(n : Int))
    else if c = '+' then (parseNatDigits rest none).map (fun n => (n : Int))
    else (parseNatDigits (c :: rest) none).map (fun n => (n : Int))

/-- Python `d[key]` membership/lookup on an attribute mapping (keys are
unique, so the first match is the binding). -/
def dlookup (key : String) (d : List (String × OneValue)) : Option OneValue :=
  (d.find? (fun p => p.1 == key)).map (fun p => p.2)

/-- Lookup in a flat string-to-string mapping. -/
def slookup (key : String) (m : List (String × String)) : Option String :=
  (m.find? (fun p => p.1 == key)).map (fun p => p.2)

/-- Python `m[key] = val` on a string dict: overwrite in place if the key is
present (keeping its position), otherwise append. -/
def dinsert (m : List (String × String)) (key val : String) : List (String × String) :=
  match m with
  | [] => [(key, val)]
  | p :: rest => if p.1 = key then (key, val) :: rest else p :: dinsert rest key val

/-- Embedding of `one_dict_to_lowercase`.  The source iterates over the keys
in order, skips the `"#text"` marker, stores non-empty string values under
the lower-cased key, and for mapping values performs a recursive call whose
result it discards (the recursion is pure, so the discarded call is
equivalent to no call at all); values of any other shape are ignored. -/
def one_dict_to_lowercase (one_dict : List (String × OneValue)) : List (String × String) :=
  one_dict.foldl
    (fun result kv =>
      if kv.1 = "#text" then result
      else
        match kv.2 with
        | OneValue.str s => if s.length ≠ 0 then dinsert result (lowerStr kv.1) s else result
        | OneValue.dict _ => result
        | OneValue.list _ => result)
    []

/-- Python `int(x)` on the values that occur in this code base: parses a
string (`ValueError` on failure) and raises `TypeError` on mappings and
lists. -/
def pyInt (v : OneValue) : Except PyErr Int :=
  match v with
  | OneValue.str s =>
    match parseIntStr s with
    | some n => Except.ok n
    | none => Except.error PyErr.valueError
  | _ => Except.error PyErr.typeError

/-- Result of `server.template.info`: the template's NAME, a
`OneNoExistsException`, or any other `OneException`. -/
inductive TplResult where
  | found (nm : String)
  | noExists
  | err

/-- Result of `server.vn.info`: the virtual network's TEMPLATE mapping
(string-valued attributes), a `OneNoExistsException`, or another error. -/
inductive VnResult where
  | found (template : List (String × String))
  | noExists
  | err

/-- The remote endpoint together with the external pyone library, as the
plugin uses them: `lcmName` models the `pyone.LCM_STATE` enum lookup
(`none` = unknown code, a `ValueError`), `templateInfo` models
`server.template.info`, and `vnInfo` models `server.vn.info`. -/
structure Server where
  lcmName : Int → Option String
  templateInfo : Int → TplResult
  vnInfo : Int → VnResult

/-- Embedding of `get_domain_name_for_network`: converts the id with `int`,
fetches the network (an uncaught exception if it is missing or the call
fails), and returns `TEMPLATE["DOMAIN"][:-1]` when a DOMAIN is configured,
`None` otherwise. -/
def get_domain_name_for_network (server : Server) (network_id : OneValue) : Except PyErr (Option String) :=
  match pyInt network_id with
  | Except.error e => Except.error e
  | Except.ok nid =>
    match server.vnInfo nid with
    | VnResult.found tmpl =>
      match slookup "DOMAIN" tmpl with
      | some d => Except.ok (some (d.dropRight 1))
      | none => Except.ok none
    | VnResult.noExists => Except.error PyErr.noExists
    | VnResult.err => Except.error PyErr.remoteFailure

/-- The `State` enum of the plugin (code 7 has no member, as in the
source). -/
inductive State where
  | init
  | pending
  | hold
  | active
  | stopped
  | suspended
  | done
  | poweroff
  | undeployed
  | cloning
  | cloning_failure
deriving DecidableEq

/-- The `.name` attribute of each `State` member. -/
def State.name : State → String
  | State.init => "init"
  | State.pending => "pending"
  | State.hold => "hold"
  | State.active => "active"
  | State.stopped => "stopped"
  | State.suspended => "suspended"
  | State.done => "done"
  | State.poweroff => "poweroff"
  | State.undeployed => "undeployed"
  | State.cloning => "cloning"
  | State.cloning_failure => "cloning_failure"

/-- Python `State(c)`: the enum member whose value is `c`, or a `ValueError`
(`none`) when no member has that value. -/
def State.ofCode (c : Int) : Option State :=
  if c = 0 then some State.init
  else if c = 1 then some State.pending
  else if c = 2 then some State.hold
  else if c = 3 then some State.active
  else if c = 4 then some State.stopped
  else if c = 5 then some State.suspended
  else if c = 6 then some State.done
  else if c = 8 then some State.poweroff
  else if c = 9 then some State.undeployed
  else if c = 10 then some State.cloning
  else if c = 11 then some State.cloning_failure
  else none

/-- The fixed code/name enumeration table from the spec (7 is unused). -/
def stateTable : List (Int × String) :=
  [(0, "init"), (1, "pending"), (2, "hold"), (3, "active"), (4, "stopped"),
   (5, "suspended"), (6, "done"), (8, "poweroff"), (9, "undeployed"),
   (10, "cloning"), (11, "cloning_failure")]

/-- The fields the builder reads from a pooled raw VM object. -/
structure RawVM where
  ID : Int
  NAME : String
  STATE : Int
  LCM_STATE : Int
  DEPLOY_ID : String
  STIME : Int
  TEMPLATE : Option (List (String × OneValue))
  USER_TEMPLATE : Option (List (String × OneValue))

/-- The `vm_dict` record built by `_get_dict_for_vm`; optional Python keys
become `Option` fields (`none` = key absent). -/
structure VmRecord where
  id : Int
  name : String
  state : String
  lcm_state : String
  deploy_id : String
  start_timestamp : Int
  nic : List (List (String × String))
  network_id_domain_map : List (String × String)
  template_id : Option Int
  template : Option String
  user_attributes : Option (List (String × String))
deriving DecidableEq

/-- The TEMPLATE_ID block of `_get_dict_for_vm`: when the key is present,
`template_id` is set before the lookup; a `OneNoExistsException` is logged
and swallowed (leaving `template` unset), any other `OneException` aborts
the run. -/
def resolveTemplateRef (server : Server) (t : List (String × OneValue)) : Except PyErr (Option Int × Option String) :=
  match dlookup "TEMPLATE_ID" t with
  | none => Except.ok (none, none)
  | some v =>
    match pyInt v with
    | Except.error e => Except.error e
    | Except.ok tid =>
      match server.templateInfo tid with
      | TplResult.found nm => Except.ok (some tid, some nm)
      | TplResult.noExists => Except.ok (some tid, none)
      | TplResult.err => Except.error PyErr.remoteFailure

/-- The NIC extraction of `_get_dict_for_vm`: a single mapping is wrapped in
a one-element list, a list is taken as is, anything else yields no NICs. -/
def rawNics (t : List (String × OneValue)) : List OneValue :=
  match dlookup "NIC" t with
  | some (OneValue.dict d) => [OneValue.dict d]
  | some (OneValue.list l) => l
  | _ => []

/-- The raw NIC entries of a VM, as the builder iterates over them. -/
def vmRawNics (vm : RawVM) : List OneValue :=
  match vm.TEMPLATE with
  | some t => rawNics t
  | none => []

/-- The per-NIC loop of `_get_dict_for_vm`: appends the normalized NIC,
reads the raw `NETWORK_ID` (`KeyError` if absent), queries the network's
domain, and records it in `network_id_domain_map` keyed by the raw
`NETWORK_ID` value when a domain is found.  Iterating a non-mapping NIC
entry makes the Python code fail. -/
def processNics (server : Server) : List OneValue → VmRecord → Except PyErr VmRecord
  | [], acc => Except.ok acc
  | nicv :: rest, acc =>
    match nicv with
    | OneValue.dict d =>
      match dlookup "NETWORK_ID" d with
      | none => Except.error PyErr.keyError
      | some nid =>
        match get_domain_name_for_network server nid with
        | Except.error e => Except.error e
        | Except.ok none =>
          processNics server rest { acc with nic := acc.nic ++ [one_dict_to_lowercase d] }
        | Except.ok (some dn) =>
          match nid with
          | OneValue.str s =>
            processNics server rest
              { acc with
                nic := acc.nic ++ [one_dict_to_lowercase d],
                network_id_domain_map := dinsert acc.network_id_domain_map s dn }
          | _ => Except.error PyErr.typeError
    | _ => Except.error PyErr.attributeError

/-- Embedding of `_get_dict_for_vm`. -/
def buildVm (server : Server) (vm : RawVM) : Except PyErr VmRecord :=
  match State.ofCode vm.STATE with
  | none => Except.error PyErr.unknownState
  | some vm_state =>
    match server.lcmName vm.LCM_STATE with
    | none => Except.error PyErr.unknownLcmState
    | some lcm_nm =>
      match
        (match vm.TEMPLATE with
         | none =>
           Except.ok
             { id := vm.ID, name := vm.NAME, state := State.name vm_state,
               lcm_state := lowerStr lcm_nm, deploy_id := vm.DEPLOY_ID,
               start_timestamp := vm.STIME, nic := [], network_id_domain_map := [],
               template_id := none, template := none, user_attributes := none }
         | some t =>
           match resolveTemplateRef server t with
           | Except.error e => Except.error e
           | Except.ok (tid, tnm) =>
             processNics server (rawNics t)
               { id := vm.ID, name := vm.NAME, state := State.name vm_state,
                 lcm_state := lowerStr lcm_nm, deploy_id := vm.DEPLOY_ID,
                 start_timestamp := vm.STIME, nic := [], network_id_domain_map := [],
                 template_id := tid, template := tnm, user_attributes := none })
      with
      | Except.error e => Except.error e
      | Except.ok rec0 =>
        match vm.USER_TEMPLATE with
        | none => Except.ok rec0
        | some u => Except.ok { rec0 with user_attributes := some (one_dict_to_lowercase u) }

/-- Embedding of `_get_hostname`.  The empty policy string models a falsy
option value (the only case rejected by the source's guard); an unmatched
non-empty policy falls off the end of the Python function, which returns
`None`. -/
def getHostname (server : Server) (hostname_preference : String) (vm : VmRecord) : Except PyErr (Option String) :=
  if hostname_preference = "" then Except.error PyErr.invalidOption
  else if hostname_preference = "fqdn" then
    match vm.nic[0]? with
    | none => Except.error PyErr.indexError
    | some nic0 =>
      match slookup "network_id" nic0 with
      | none => Except.error PyErr.keyError
      | some nid =>
        match get_domain_name_for_network server (OneValue.str nid) with
        | Except.error e => Except.error e
        | Except.ok (some domain) => Except.ok (some (vm.name ++ "." ++ domain))
        | Except.ok none => Except.ok (some vm.name)
  else if hostname_preference = "name" then Except.ok (some vm.name)
  else Except.ok none

/-- Embedding of `_populate_from_source`: the inventory side effects are
collected as the list of (hostname, record) registrations, in order.  For a
record with no NICs the source's log message interpolates the undefined
name `vm`, which raises `NameError` and aborts the run. -/
def populateFromSource (server : Server) (hostname_preference : String) : List VmRecord → Except PyErr (List (Option String × VmRecord))
  | [] => Except.ok []
  | host :: rest =>
    if host.nic.length = 0 then Except.error PyErr.nameError
    else
      match getHostname server hostname_preference host with
      | Except.error e => Except.error e
      | Except.ok hn =>
        match populateFromSource server hostname_preference rest with
        | Except.error e => Except.error e
        | Except.ok tail => Except.ok ((hn, host) :: tail)

/-- The observable outcome of the cache logic inside `parse`: the data that
is populated, the cache content under the source's key afterwards, and
whether the slow-path query ran. -/
structure ParseOutcome where
  source_data : List VmRecord
  cache_after : Option (List VmRecord)
  did_query : Bool

/-- The caching logic of `parse`, as a pure function of the `cache` user
option (`user_cache_setting`), the run's `cache` flag, the cache content
under the source's key (`none` = `KeyError` on read), and the result the
slow-path `_query` would return. -/
def parseCacheLogic (user_cache_setting cache : Bool) (cached : Option (List VmRecord)) (query_result : List VmRecord) : ParseOutcome :=
  let attempt_to_read_cache := user_cache_setting && cache
  let read_result := if attempt_to_read_cache then cached else none
  let cache_needs_update := (user_cache_setting && !cache) || (attempt_to_read_cache && read_result.isNone)
  let source_data :=
    match read_result with
    | some d => d
    | none => query_result
  { source_data := source_data,
    cache_after := if cache_needs_update then some source_data else cached,
    did_query := read_result.isNone }

/-- A concrete remote endpoint used by the concrete instances below:
template 7 has been deleted, network 2 declares `DOMAIN "corp.local."`,
network 3 declares `DOMAIN "example.com"`, network 4 declares no domain. -/
def exServer : Server :=
  { lcmName := fun c => if c = 0 then some "LCM_INIT" else none
  , templateInfo := fun i => if i = 7 then TplResult.noExists else TplResult.found "base-template"
  , vnInfo := fun i =>
      if i = 2 then VnResult.found [("DOMAIN", "corp.local.")]
      else if i = 3 then VnResult.found [("DOMAIN", "example.com")]
      else if i = 4 then VnResult.found []
      else VnResult.noExists }

/-- A concrete VM record with one NIC on network 2. -/
def exRec : VmRecord :=
  { id := 1, name := "vm1", state := "active", lcm_state := "lcm_init",
    deploy_id := "dep", start_timestamp := 0,
    nic := [[("network_id", "2")]],
    network_id_domain_map := [("2", "corp.local")],
    template_id := none, template := none, user_attributes := none }

/-- A concrete VM record with no NICs. -/
def exRecNoNic : VmRecord :=
  { exRec with id := 2, name := "vm2", nic := [], network_id_domain_map := [] }

/-- A raw VM referencing the deleted template 7. -/
def exVmTpl : RawVM :=
  { ID := 5, NAME := "web1", STATE := 3, LCM_STATE := 0, DEPLOY_ID := "",
    STIME := 100, TEMPLATE := some [("TEMPLATE_ID", OneValue.str "7")],
    USER_TEMPLATE := none }

/-- The record the builder produces for `exVmTpl`. -/
def exRecTpl : VmRecord :=
  { id := 5, name := "web1", state := "active", lcm_state := "lcm_init",
    deploy_id := "", start_timestamp := 100, nic := [], network_id_domain_map := [],
    template_id := some 7, template := none, user_attributes := none }

/-- A raw VM whose STATE code 7 has no enum member. -/
def exVmState7 : RawVM :=
  { exVmTpl with ID := 9, NAME := "web9", STATE := 7 }

/-- A raw VM with a single NIC on network 2. -/
def exVmNic : RawVM :=
  { ID := 6, NAME := "web2", STATE := 3, LCM_STATE := 0, DEPLOY_ID := "",
    STIME := 100,
    TEMPLATE := some [("NIC", OneValue.dict [("NETWORK_ID", OneValue.str "2")])],
    USER_TEMPLATE := none }

/-- The record the builder produces for `exVmNic`. -/
def exRecNic : VmRecord :=
  { id := 6, name := "web2", state := "active", lcm_state := "lcm_init",
    deploy_id := "", start_timestamp := 100,
    nic := [[("network_id", "2")]],
    network_id_domain_map := [("2", "corp.local")],
    template_id := none, template := none, user_attributes := none }

/-- A raw VM whose NIC carries both a raw `NETWORK_ID` key and a literal
lower-case `network_id` key with a different value. -/
def exVmNicClash : RawVM :=
  { exVmNic with
    ID := 7,
    NAME := "web3",
    TEMPLATE := some [("NIC", OneValue.dict
      [("NETWORK_ID", OneValue.str "2"), ("network_id", OneValue.str "9")])] }

/-- The record the builder produces for `exVmNicClash`. -/
def exRecNicClash : VmRecord :=
  { exRecNic with id := 7, name := "web3", nic := [[("network_id", "9")]] }

/-- The record-level invariant of claim C8: every key of
`network_id_domain_map` is the `network_id` of some entry of the record's
`nic` sequence. -/
def domainKeysCovered (rec : VmRecord) : Prop :=
  ∀ k v, (k, v) ∈ rec.network_id_domain_map →
    ∃ e, e ∈ rec.nic ∧ slookup "network_id" e = some k

/-- Membership after a dict assignment: the entry was already present or its
key is the assigned key. -/
theorem mem_dinsert (m : List (String × String)) (k v key val : String)
    (h : (k, v) ∈ dinsert m key val) : (k, v) ∈ m ∨ k = key := by
  induction m with
  | nil =>
    simp only [dinsert, List.mem_singleton, Prod.mk.injEq] at h
    exact Or.inr h.1
  | cons p rest ih =>
    simp only [dinsert] at h
    split at h
    · rcases List.mem_cons.mp h with h1 | h1
      · simp only [Prod.mk.injEq] at h1
        exact Or.inr h1.1
      · exact Or.inl (List.mem_cons_of_mem p h1)
    · rcases List.mem_cons.mp h with h1 | h1
      · exact Or.inl (h1 ▸ List.mem_cons_self p rest)
      · rcases ih h1 with h2 | h2
        · exact Or.inl (List.mem_cons_of_mem p h2)
        · exact Or.inr h2

/-- The NIC loop only touches the `nic` and `network_id_domain_map` fields. -/
theorem processNics_preserves (server : Server) (l : List OneValue) :
    ∀ (acc rec : VmRecord), processNics server l acc = Except.ok rec →
      rec.state = acc.state ∧ rec.template_id = acc.template_id ∧
      rec.template = acc.template := by
  induction l with
  | nil =>
    intro acc rec h
    simp only [processNics] at h
    injection h with h
    subst h
    exact ⟨rfl, rfl, rfl⟩
  | cons nicv rest ih =>
    intro acc rec h
    simp only [processNics] at h
    split at h
    · split at h
      · exact Except.noConfusion h
      · split at h
        · exact Except.noConfusion h
        · have h2 := ih _ _ h
          exact h2
        · split at h
          · have h2 := ih _ _ h
            exact h2
          · exact Except.noConfusion h
    · exact Except.noConfusion h

/-- Shape of every record the builder returns: the state comes from the
`State` enum lookup, and the template fields come from the TEMPLATE_ID
block. -/
theorem buildVm_ok_fields (server : Server) (vm : RawVM) (rec : VmRecord)
    (h : buildVm server vm = Except.ok rec) :
    ∃ st, State.ofCode vm.STATE = some st ∧ rec.state = State.name st ∧
      (∀ t, vm.TEMPLATE = some t →
        ∃ pr, resolveTemplateRef server t = Except.ok pr ∧
          rec.template_id = pr.1 ∧ rec.template = pr.2) := by
  unfold buildVm at h
  split at h
  · exact Except.noConfusion h
  next vm_state hst =>
    split at h
    · exact Except.noConfusion h
    next lcm_nm hlcm =>
      split at h
      · exact Except.noConfusion h
      next rec0 hinner =>
        refine ⟨vm_state, hst, ?_⟩
        have hmain : rec0.state = State.name vm_state ∧
            (∀ t, vm.TEMPLATE = some t →
              ∃ pr, resolveTemplateRef server t = Except.ok pr ∧
                rec0.template_id = pr.1 ∧ rec0.template = pr.2) := by
          split at hinner
          next hT =>
            injection hinner with hinner
            subst hinner
            exact ⟨rfl, fun t ht => absurd (hT ▸ ht) (by simp)⟩
          next t hT =>
            split at hinner
            · exact Except.noConfusion hinner
            next tid tnm hres =>
              have hpres := processNics_preserves server (rawNics t) _ _ hinner
              refine ⟨hpres.1, fun t' ht' => ?_⟩
              rw [hT] at ht'
              injection ht' with ht'
              subst ht'
              exact ⟨(tid, tnm), hres, hpres.2.1, hpres.2.2⟩
        split at h
        · injection h with h
          subst h
          exact ⟨hmain.1, hmain.2⟩
        · injection h with h
          subst h
          exact ⟨hmain.1, hmain.2⟩

/-- Every table row is realized by the `State` enum lookup. -/
theorem stateTable_ofCode (c : Int) (n : String) (h : (c, n) ∈ stateTable) :
    ∃ st, State.ofCode c = some st ∧ State.name st = n := by
  have key : ∀ p ∈ stateTable, (State.ofCode p.1).map State.name = some p.2 := by decide
  exact Option.map_eq_some'.mp (key (c, n) h)

/-- A code outside the table has no `State` enum member. -/
theorem ofCode_eq_none (c : Int) (h : c ∉ stateTable.map Prod.fst) :
    State.ofCode c = none := by
  simp only [stateTable, List.map_cons, List.map_nil, List.mem_cons, List.not_mem_nil,
    or_false, not_or] at h
  obtain ⟨h0, h1, h2, h3, h4, h5, h6, h8, h9, h10, h11⟩ := h
  simp [State.ofCode, h0, h1, h2, h3, h4, h5, h6, h8, h9, h10, h11]

/-- Claim C1, behavior of the code at the failing input: normalizing a
mapping whose only field is itself a mapping yields the empty result — the
recursive result is discarded, not merged — although normalizing the nested
mapping alone shows the contribution the merge would have added. -/
theorem C1_nested_keys_dropped :
    one_dict_to_lowercase [("A", OneValue.dict [("B", OneValue.str "x")])] = [] ∧
    one_dict_to_lowercase [("B", OneValue.str "x")] = [("b", "x")] :=
  ⟨rfl, rfl⟩

/-- Claim C2, behavior of the code at the failing input: with the policy
value "bogus" — which is neither "fqdn" nor "name" — the hostname resolver
does not fail with an invalid-option error; it silently returns no value.
Only a falsy (empty) policy triggers the guard. -/
theorem C2_unrecognized_policy_silent :
    getHostname exServer "bogus" exRec = Except.ok none ∧
    getHostname exServer "" exRec = Except.error PyErr.invalidOption :=
  ⟨rfl, rfl⟩

/-- Claim C3, counterexample: for a VM record with an empty nic sequence and
the policy "fqdn", the resolver raises an index error instead of returning
the record's name. -/
theorem C3_fqdn_empty_nic_cex :
    getHostname exServer "fqdn" exRecNoNic = Except.error PyErr.indexError ∧
    getHostname exServer "fqdn" exRecNoNic ≠ Except.ok (some exRecNoNic.name) := by
  refine ⟨rfl, ?_⟩
  intro hcontra
  have h2 : (Except.error PyErr.indexError : Except PyErr (Option String)) =
      Except.ok (some exRecNoNic.name) := by
    rw [← hcontra]
    rfl
  exact Except.noConfusion h2

/-- Claim C3 as amended: for a VM record with an empty nic sequence the
resolver returns the record's name under the policy "name", but under the
policy "fqdn" it fails with an index error (there is no empty-nic
precondition check; the caller skips such records instead). -/
theorem C3_empty_nic_amended (server : Server) (vm : VmRecord) (h : vm.nic = []) :
    getHostname server "name" vm = Except.ok (some vm.name) ∧
    getHostname server "fqdn" vm = Except.error PyErr.indexError := by
  refine ⟨rfl, ?_⟩
  simp [getHostname, h]

/-- Claim C3, witness: the amended statement at a concrete record. -/
theorem C3_empty_nic_witness :
    getHostname exServer "name" exRecNoNic = Except.ok (some "vm2") ∧
    getHostname exServer "fqdn" exRecNoNic = Except.error PyErr.indexError :=
  C3_empty_nic_amended exServer exRecNoNic rfl

/-- Claim C4, counterexample: for a raw VM whose template block references
TEMPLATE_ID 7 and whose template lookup reports "does not exist", the
builder succeeds but the record still contains `template_id` (only
`template` is absent). -/
theorem C4_template_id_kept :
    buildVm exServer exVmTpl = Except.ok exRecTpl ∧
    exRecTpl.template_id = some 7 ∧ exRecTpl.template = none :=
  ⟨rfl, rfl, rfl⟩

/-- Claim C4 as amended: when the referenced template does not exist the
TEMPLATE_ID block does not fail and the run continues, the `template` field
is absent, but `template_id` remains present — it is assigned before the
lookup. -/
theorem C4_noexists_amended (server : Server) (vm : RawVM) (t : List (String × OneValue))
    (v : OneValue) (n : Int)
    (ht : vm.TEMPLATE = some t)
    (hv : dlookup "TEMPLATE_ID" t = some v)
    (hn : pyInt v = Except.ok n)
    (hne : server.templateInfo n = TplResult.noExists) :
    resolveTemplateRef server t = Except.ok (some n, none) ∧
    ∀ rec, buildVm server vm = Except.ok rec →
      rec.template_id = some n ∧ rec.template = none := by
  have h1 : resolveTemplateRef server t = Except.ok (some n, none) := by
    simp [resolveTemplateRef, hv, hn, hne]
  refine ⟨h1, ?_⟩
  intro rec hok
  obtain ⟨st, _, _, htpl⟩ := buildVm_ok_fields server vm rec hok
  obtain ⟨pr, hpr, h2, h3⟩ := htpl t ht
  rw [h1] at hpr
  injection hpr with hpr
  subst hpr
  exact ⟨h2, h3⟩

/-- Claim C4, witness: the amended statement at a concrete VM referencing
the deleted template 7. -/
theorem C4_noexists_witness :
    resolveTemplateRef exServer [("TEMPLATE_ID", OneValue.str "7")] = Except.ok (some 7, none) ∧
    exRecTpl.template_id = some 7 ∧ exRecTpl.template = none := by
  have h := C4_noexists_amended exServer exVmTpl [("TEMPLATE_ID", OneValue.str "7")]
    (OneValue.str "7") 7 rfl rfl rfl rfl
  exact ⟨h.1, h.2 exRecTpl rfl⟩

/-- Claim C5, behavior of the code at the failing input: a source list
containing a record with no NICs makes the populator raise (the skip-log
message interpolates the undefined name `vm`), aborting the whole run
instead of skipping the record; the same list without that record is
processed normally. -/
theorem C5_empty_nic_aborts :
    populateFromSource exServer "name" [exRecNoNic, exRec] = Except.error PyErr.nameError ∧
    populateFromSource exServer "name" [exRec] = Except.ok [(some "vm1", exRec)] :=
  ⟨rfl, rfl⟩

/-- Claim C6: for every raw VM whose STATE code is a row of the fixed
enumeration table, every record the builder returns carries exactly that
row's state name; for every STATE code outside the table the builder fails
with the unknown-state error. -/
theorem C6_state_table (server : Server) (vm : RawVM) :
    (∀ c n, (c, n) ∈ stateTable → vm.STATE = c →
      ∀ rec, buildVm server vm = Except.ok rec → rec.state = n)
    ∧ (vm.STATE ∉ stateTable.map Prod.fst →
      buildVm server vm = Except.error PyErr.unknownState) := by
  constructor
  · intro c n hmem hc rec hok
    obtain ⟨st, hst, hname⟩ := stateTable_ofCode c n hmem
    obtain ⟨st', hst', hrec, _⟩ := buildVm_ok_fields server vm rec hok
    rw [hc, hst] at hst'
    injection hst' with e
    rw [hrec, ← e, hname]
  · intro h
    have hnone := ofCode_eq_none _ h
    simp [buildVm, hnone]

/-- Claim C6, witness: STATE 3 yields the state name "active", STATE 7
fails with the unknown-state error. -/
theorem C6_state_table_witness :
    exRecTpl.state = "active" ∧
    buildVm exServer exVmState7 = Except.error PyErr.unknownState := by
  constructor
  · exact (C6_state_table exServer exVmTpl).1 3 "active" (by decide) rfl exRecTpl rfl
  · exact (C6_state_table exServer exVmState7).2 (by decide)

/-- Claim C7: the cache is consulted for data only when the user cache
option and the run's cache flag are both set; a read miss means the query
runs (not an error) and its result is written back; a forced refresh (flag
unset) also queries and writes back; a read hit serves the cached data
without querying. -/
theorem C7_cache_policy (u f : Bool) (c : Option (List VmRecord)) (q : List VmRecord) :
    (¬(u = true ∧ f = true) →
      (parseCacheLogic u f c q).source_data = q ∧
      (parseCacheLogic u f c q).did_query = true)
    ∧ (u = true → f = true → c = none →
      (parseCacheLogic u f c q).source_data = q ∧
      (parseCacheLogic u f c q).did_query = true ∧
      (parseCacheLogic u f c q).cache_after = some q)
    ∧ (u = true → f = false →
      (parseCacheLogic u f c q).source_data = q ∧
      (parseCacheLogic u f c q).cache_after = some q)
    ∧ (u = true → f = true → ∀ d, c = some d →
      (parseCacheLogic u f c q).source_data = d ∧
      (parseCacheLogic u f c q).did_query = false) := by
  cases u <;> cases f <;> cases c <;> simp [parseCacheLogic]

/-- Claim C7, witness: a read miss with caching enabled queries and writes
back, and a forced refresh overwrites stale cache content. -/
theorem C7_cache_policy_witness :
    (parseCacheLogic true true none [exRec]).source_data = [exRec] ∧
    (parseCacheLogic true true none [exRec]).cache_after = some [exRec] ∧
    (parseCacheLogic true false (some [exRecNoNic]) [exRec]).cache_after = some [exRec] := by
  have h1 := (C7_cache_policy true true none [exRec]).2.1 rfl rfl rfl
  have h2 := (C7_cache_policy true false (some [exRecNoNic]) [exRec]).2.2.1 rfl rfl
  exact ⟨h1.1, h1.2.2, h2.2⟩

/-- Claim C8, counterexample: a raw NIC carrying both a `NETWORK_ID` key and
a later literal `network_id` key produces a record whose domain map key "2"
is referenced by no entry of the record's nic sequence. -/
theorem C8_subset_cex :
    buildVm exServer exVmNicClash = Except.ok exRecNicClash ∧
    ("2", "corp.local") ∈ exRecNicClash.network_id_domain_map ∧
    (∀ e ∈ exRecNicClash.nic, slookup "network_id" e ≠ some "2") := by
  refine ⟨rfl, by decide, ?_⟩
  intro e he
  simp only [exRecNicClash, exRecNic] at he
  simp only [List.mem_singleton] at he
  subst he
  decide

/-- The NIC loop maintains the covered-keys invariant whenever normalization
preserves each processed NIC's `NETWORK_ID` under the key `network_id`. -/
theorem processNics_covered (server : Server) (l : List OneValue) :
    ∀ (acc rec : VmRecord),
      (∀ d, OneValue.dict d ∈ l → ∀ s, dlookup "NETWORK_ID" d = some (OneValue.str s) →
        slookup "network_id" (one_dict_to_lowercase d) = some s) →
      domainKeysCovered acc →
      processNics server l acc = Except.ok rec →
      domainKeysCovered rec := by
  induction l with
  | nil =>
    intro acc rec _ hacc h
    simp only [processNics] at h
    injection h with h
    subst h
    exact hacc
  | cons nicv rest ih =>
    intro acc rec hH hacc h
    simp only [processNics] at h
    split at h
    next d =>
      split at h
      · exact Except.noConfusion h
      next nid hnid =>
        split at h
        · exact Except.noConfusion h
        · refine ih _ _ (fun d' hd' => hH d' (List.mem_cons_of_mem _ hd')) ?_ h
          intro k v hm
          obtain ⟨e, he, hes⟩ := hacc k v hm
          exact ⟨e, List.mem_append_left _ he, hes⟩
        next dn hdom =>
          split at h
          next s =>
            refine ih _ _ (fun d' hd' => hH d' (List.mem_cons_of_mem _ hd')) ?_ h
            intro k v hm
            rcases mem_dinsert _ _ _ _ _ hm with hm1 | hm1
            · obtain ⟨e, he, hes⟩ := hacc k v hm1
              exact ⟨e, List.mem_append_left _ he, hes⟩
            · subst hm1
              refine ⟨one_dict_to_lowercase d, ?_, ?_⟩
              · exact List.mem_append_right _ (List.mem_singleton_self _)
              · exact hH d (List.mem_cons_self _ _) k hnid
          · exact Except.noConfusion h
    · exact Except.noConfusion h

/-- Claim C8 as amended: for every record the builder produces, the keys of
`network_id_domain_map` are a subset of the network ids referenced by the
entries of the nic sequence, provided normalization preserves each raw
NIC's `NETWORK_ID` under the lower-cased key `network_id` (that is, no
other key of the same raw NIC collides with `network_id` after
lower-casing). -/
theorem C8_subset_amended (server : Server) (vm : RawVM) (rec : VmRecord)
    (hH : ∀ d, OneValue.dict d ∈ vmRawNics vm → ∀ s,
      dlookup "NETWORK_ID" d = some (OneValue.str s) →
      slookup "network_id" (one_dict_to_lowercase d) = some s)
    (hok : buildVm server vm = Except.ok rec) :
    domainKeysCovered rec := by
  unfold buildVm at hok
  split at hok
  · exact Except.noConfusion hok
  next vm_state hst =>
    split at hok
    · exact Except.noConfusion hok
    next lcm_nm hlcm =>
      split at hok
      · exact Except.noConfusion hok
      next rec0 hinner =>
        have hcov0 : domainKeysCovered rec0 := by
          split at hinner
          next hT =>
            injection hinner with hinner
            subst hinner
            intro k v hm
            exact absurd hm (by simp)
          next t hT =>
            split at hinner
            · exact Except.noConfusion hinner
            next tid tnm hres =>
              refine processNics_covered server (rawNics t) _ _ ?_ ?_ hinner
              · intro d hd
                exact hH d (by simpa [vmRawNics, hT] using hd)
              · intro k v hm
                exact absurd hm (by simp)
        split at hok
        · injection hok with hok
          subst hok
          exact hcov0
        · injection hok with hok
          subst hok
          intro k v hm
          exact hcov0 k v hm

/-- Claim C8, witness: the amended statement at a concrete VM with one NIC
on network 2. -/
theorem C8_subset_witness :
    buildVm exServer exVmNic = Except.ok exRecNic ∧
    (∃ e, e ∈ exRecNic.nic ∧ slookup "network_id" e = some "2") := by
  refine ⟨rfl, ?_⟩
  refine C8_subset_amended exServer exVmNic exRecNic ?_ rfl "2" "corp.local" (by decide)
  intro d hd s hs
  rw [show vmRawNics exVmNic = [OneValue.dict [("NETWORK_ID", OneValue.str "2")]] from rfl] at hd
  have hd2 := List.mem_singleton.mp hd
  injection hd2 with hd2
  subst hd2
  rw [show dlookup "NETWORK_ID" [("NETWORK_ID", OneValue.str "2")] =
    some (OneValue.str "2") from rfl] at hs
  injection hs with hs
  injection hs with hs
  subst hs
  rfl

/-- Claim C9: for every network whose TEMPLATE maps DOMAIN to a string d,
the domain lookup returns d with its final character removed,
unconditionally; with no DOMAIN it returns no domain. -/
theorem C9_domain_truncated (server : Server) (v : OneValue) (n : Int)
    (tmpl : List (String × String))
    (hn : pyInt v = Except.ok n) (hv : server.vnInfo n = VnResult.found tmpl) :
    (∀ d, slookup "DOMAIN" tmpl = some d →
      get_domain_name_for_network server v = Except.ok (some (d.dropRight 1)))
    ∧ (slookup "DOMAIN" tmpl = none →
      get_domain_name_for_network server v = Except.ok none) := by
  constructor
  · intro d hd
    simp [get_domain_name_for_network, hn, hv, hd]
  · intro hd
    simp [get_domain_name_for_network, hn, hv, hd]

/-- Claim C9, witness: the domain "example.com", which ends in no separator,
is truncated to "example.co"; a network without DOMAIN yields no domain. -/
theorem C9_domain_truncated_witness :
    get_domain_name_for_network exServer (OneValue.str "3") = Except.ok (some "example.co") ∧
    get_domain_name_for_network exServer (OneValue.str "4") = Except.ok none := by
  have h3 := C9_domain_truncated exServer (OneValue.str "3") 3 [("DOMAIN", "example.com")] rfl rfl
  have h4 := C9_domain_truncated exServer (OneValue.str "4") 4 [] rfl rfl
  exact ⟨h3.1 "example.com" rfl, h4.2 rfl⟩

/-- Claim C10: the hostname resolver never reads `network_id_domain_map`:
replacing that field by anything leaves the result unchanged, for every
policy, record and remote endpoint. -/
theorem C10_map_not_read (server : Server) (hostname_preference : String)
    (vm : VmRecord) (m : List (String × String)) :
    getHostname server hostname_preference { vm with network_id_domain_map := m } =
    getHostname server hostname_preference vm := rfl
